import Mathlib

/-!
Verification of the escape/unescape codec (`plugins/escape_tool.py`) and the
color converter (`plugins/color_tool.py`) of the devtoolkit repository.

Python strings are modelled as lists of Unicode code points (`List Nat`) for
the JavaScript codec (Python strings may hold lone surrogates, which Lean
`Char` cannot), and as `List Char` for the XML codec and the color tool whose
inputs are ordinary text.  Python `float` arithmetic in the color conversions
is modelled with exact rationals; every truncation exercised by a theorem
below is far from an integer boundary, where binary64 evaluation agrees with
the exact value.
-/

unseal Rat.mul Rat.add Rat.sub Rat.inv

set_option maxRecDepth 40000

/-- Hex digit character (lowercase), as emitted by Python `'%04x'`. -/
def hexDigit (v : Nat) : Nat :=
  if v < 10 then 48 + v else 87 + v

/-- The four hex digits of `'%04x' % n` (for `n < 0x10000`, which holds for
every value the escaper formats). -/
def toHex4 (n : Nat) : List Nat :=
  [hexDigit ((n >>> 12) &&& 15), hexDigit ((n >>> 8) &&& 15),
   hexDigit ((n >>> 4) &&& 15), hexDigit (n &&& 15)]

/-- `js_escape` from `escape_tool.py`, per character: named two-character
escapes for quote, apostrophe, backslash, newline, carriage return, tab,
backspace, form feed; `\u00XX` for remaining control characters; `\uXXXX` for
BMP code points above 0x7F; a surrogate pair `\uHHHH\uLLLL` above 0xFFFF;
the character itself otherwise. -/
def js_escapeChar (o : Nat) : List Nat :=
  if o = 34 then [92, 34]
  else if o = 39 then [92, 39]
  else if o = 92 then [92, 92]
  else if o = 10 then [92, 110]
  else if o = 13 then [92, 114]
  else if o = 9 then [92, 116]
  else if o = 8 then [92, 98]
  else if o = 12 then [92, 102]
  else if o < 32 then [92, 117] ++ toHex4 o
  else if o > 127 then
    if o ≤ 65535 then [92, 117] ++ toHex4 o
    else
      [92, 117] ++ toHex4 (55296 + ((o - 65536) >>> 10)) ++
      [92, 117] ++ toHex4 (56320 + ((o - 65536) &&& 1023))
  else [o]

/-- `js_escape` from `escape_tool.py`: escape each character in turn and
join the results. -/
def js_escape (s : List Nat) : List Nat :=
  s.flatMap js_escapeChar

/-- One `str.replace('\\C', R)` pass of `js_unescape`: replace every
occurrence of backslash followed by code point `c` with `r`, scanning left to
right. -/
def replaceEsc (c r : Nat) : List Nat → List Nat
  | x :: y :: rest =>
    if x = 92 ∧ y = c then r :: replaceEsc c r rest
    else x :: replaceEsc c r (y :: rest)
  | l => l

/-- The chain of single-character `str.replace` calls of `js_unescape`, in
source order: `\n`, `\r`, `\t`, `\b`, `\f`, `\"`, `\'`, `\\`. -/
def jsNamed (s : List Nat) : List Nat :=
  replaceEsc 92 92 (replaceEsc 39 39 (replaceEsc 34 34 (replaceEsc 102 12
    (replaceEsc 98 8 (replaceEsc 116 9 (replaceEsc 114 13
      (replaceEsc 110 10 s)))))))

/-- Is the code point an ASCII hex digit (`[0-9a-fA-F]`)? -/
def isHexCp (x : Nat) : Prop :=
  (48 ≤ x ∧ x ≤ 57) ∨ (97 ≤ x ∧ x ≤ 102) ∨ (65 ≤ x ∧ x ≤ 70)

instance (x : Nat) : Decidable (isHexCp x) := by
  unfold isHexCp; infer_instance

/-- Value of an ASCII hex digit, `int(c, 16)` style (both letter cases). -/
def hexVal (x : Nat) : Nat :=
  if x ≤ 57 then x - 48 else if x ≤ 70 then x - 55 else x - 87

/-- Value of a four-digit hex group. -/
def hexVal4 (a b c d : Nat) : Nat :=
  4096 * hexVal a + 256 * hexVal b + 16 * hexVal c + hexVal d

/-- The `re.sub(r"\\x([0-9a-fA-F]{2})", ...)` pass of `js_unescape`. -/
def replaceX : List Nat → List Nat
  | x :: y :: d1 :: d2 :: rest =>
    if x = 92 ∧ y = 120 ∧ isHexCp d1 ∧ isHexCp d2 then
      (16 * hexVal d1 + hexVal d2) :: replaceX rest
    else x :: replaceX (y :: d1 :: d2 :: rest)
  | l => l

/-- Character class `[dD]` of the surrogate-pair regex. -/
def isSurrD (x : Nat) : Prop := x = 100 ∨ x = 68

instance (x : Nat) : Decidable (isSurrD x) := by
  unfold isSurrD; infer_instance

/-- Character class `[89abAB]` (second digit of a high surrogate). -/
def isHighCp (x : Nat) : Prop :=
  x = 56 ∨ x = 57 ∨ x = 97 ∨ x = 98 ∨ x = 65 ∨ x = 66

instance (x : Nat) : Decidable (isHighCp x) := by
  unfold isHighCp; infer_instance

/-- Character class `[cdefCDEF]` (second digit of a low surrogate). -/
def isLowCp (x : Nat) : Prop :=
  x = 99 ∨ x = 100 ∨ x = 101 ∨ x = 102 ∨ x = 67 ∨ x = 68 ∨ x = 69 ∨ x = 70

instance (x : Nat) : Decidable (isLowCp x) := by
  unfold isLowCp; infer_instance

/-- The surrogate-pair pass of `js_unescape`: the substitution for
`\\u([dD][89abAB]..)\\u([dD][cdefCDEF]..)`, recombining a high/low pair into
`((hi - 0xD800) << 10) + (lo - 0xDC00) + 0x10000`. -/
def replaceSurr : List Nat → List Nat
  | x1 :: x2 :: a :: b :: c :: d :: x3 :: x4 :: e :: f :: g :: h :: rest =>
    if x1 = 92 ∧ x2 = 117 ∧ isSurrD a ∧ isHighCp b ∧ isHexCp c ∧ isHexCp d ∧
       x3 = 92 ∧ x4 = 117 ∧ isSurrD e ∧ isLowCp f ∧ isHexCp g ∧ isHexCp h then
      (((hexVal4 a b c d - 55296) <<< 10) + (hexVal4 e f g h - 56320) + 65536)
        :: replaceSurr rest
    else x1 :: replaceSurr (x2 :: a :: b :: c :: d :: x3 :: x4 :: e :: f :: g :: h :: rest)
  | l => l

/-- The `re.sub(r"\\u([0-9a-fA-F]{4})", ...)` pass of `js_unescape`. -/
def replaceU : List Nat → List Nat
  | x :: y :: a :: b :: c :: d :: rest =>
    if x = 92 ∧ y = 117 ∧ isHexCp a ∧ isHexCp b ∧ isHexCp c ∧ isHexCp d then
      hexVal4 a b c d :: replaceU rest
    else x :: replaceU (y :: a :: b :: c :: d :: rest)
  | l => l

/-- `js_unescape` from `escape_tool.py`: named two-character escapes first
(the `str.replace` chain), then `\xHH`, then surrogate pairs, then remaining
`\uHHHH`. -/
def js_unescape (s : List Nat) : List Nat :=
  replaceU (replaceSurr (replaceX (jsNamed s)))

/-- Modelled from the spec: the decode order the specification prescribes for
JavaScript unescape — `\xHH` first, then surrogate pairs, then standalone
`\uHHHH`, and the named two-character escapes only last.  (The source applies
the named escapes first; this definition exists to compare the two orders.) -/
def jsUnescapeClaimOrder (s : List Nat) : List Nat :=
  jsNamed (replaceU (replaceSurr (replaceX s)))

/-! ## Color converter (`plugins/color_tool.py`) -/

/-- Python `int()` applied to a (nonnegative-or-negative) rational: truncation
toward zero. -/
def pyInt (q : ℚ) : Int :=
  if q < 0 then -((-q).floor) else q.floor

/-- Python `max` on two values (computable on `ℚ`, unlike the lattice `max`). -/
def maxQ (a b : ℚ) : ℚ := if a < b then b else a

/-- Python `min` on two values. -/
def minQ (a b : ℚ) : ℚ := if b < a then b else a

/-- `ColorTool._rgb_to_hsl`: normalize channels to [0,1], compute lightness,
saturation and hue exactly as the source does, and truncate `h*360`, `s*100`,
`l*100` with `int()`. -/
def rgb_to_hsl (r g b : Int) : Int × Int × Int :=
  let r1 : ℚ := (r : ℚ) / 255
  let g1 : ℚ := (g : ℚ) / 255
  let b1 : ℚ := (b : ℚ) / 255
  let maxv := maxQ r1 (maxQ g1 b1)
  let minv := minQ r1 (minQ g1 b1)
  let l := (maxv + minv) / 2
  if maxv = minv then (0, 0, pyInt (l * 100))
  else
    let d := maxv - minv
    let s := if l > 1/2 then d / (2 - maxv - minv) else d / (maxv + minv)
    let h :=
      if maxv = r1 then (g1 - b1) / d + (if g1 < b1 then 6 else 0)
      else if maxv = g1 then (b1 - r1) / d + 2
      else (r1 - g1) / d + 4
    (pyInt (h / 6 * 360), pyInt (s * 100), pyInt (l * 100))

/-- The `hue_to_rgb` helper of `ColorTool._hsl_to_rgb`. -/
def hue_to_rgb (p q t : ℚ) : ℚ :=
  let t1 := if t < 0 then t + 1 else t
  let t2 := if t1 > 1 then t1 - 1 else t1
  if t2 < 1/6 then p + (q - p) * 6 * t2
  else if t2 < 1/2 then q
  else if t2 < 2/3 then p + (q - p) * (2/3 - t2) * 6
  else p

/-- `ColorTool._hsl_to_rgb` (`h` in degrees, `s` and `l` as fractions). -/
def hsl_to_rgb (h : Int) (s l : ℚ) : Int × Int × Int :=
  if s = 0 then (pyInt (l * 255), pyInt (l * 255), pyInt (l * 255))
  else
    let q := if l < 1/2 then l * (1 + s) else l + s - l * s
    let p := 2 * l - q
    let h1 : ℚ := (h : ℚ) / 360
    (pyInt (hue_to_rgb p q (h1 + 1/3) * 255),
     pyInt (hue_to_rgb p q h1 * 255),
     pyInt (hue_to_rgb p q (h1 - 1/3) * 255))

/-- The HEX→RGB→HSL→RGB round trip: convert to integer HSL and back, feeding
the truncated percentages to `_hsl_to_rgb` as `_parse_hsl` does. -/
def hslRound (r g b : Int) : Int × Int × Int :=
  let t := rgb_to_hsl r g b
  hsl_to_rgb t.1 ((t.2.1 : ℚ) / 100) ((t.2.2 : ℚ) / 100)

/-- Python `\s`-whitespace (ASCII part, the only part the inputs use). -/
def isPyWs (c : Char) : Bool :=
  c = ' ' || c = '\t' || c = '\n' || c = '\r' || c = '\x0b' || c = '\x0c'

/-- `str.strip()`. -/
def pyStrip (s : List Char) : List Char :=
  ((s.dropWhile isPyWs).reverse.dropWhile isPyWs).reverse

/-- Match one character case-insensitively (`re.IGNORECASE`). -/
def matchCI (c : Char) : List Char → Option (List Char)
  | x :: rest => if x.toLower = c then some rest else none
  | [] => none

/-- Match one literal character. -/
def matchCh (c : Char) : List Char → Option (List Char)
  | x :: rest => if x = c then some rest else none
  | [] => none

/-- Greedy `(\d+)`: at least one ASCII digit, returning its value. -/
def readNat (s : List Char) : Option (Nat × List Char) :=
  let ds := s.takeWhile Char.isDigit
  if ds.isEmpty then none
  else some (ds.foldl (fun acc c => 10 * acc + (c.toNat - 48)) 0,
             s.dropWhile Char.isDigit)

/-- The regex of `_parse_rgb`:
`rgb\s*\(\s*(\d+)\s*,\s*(\d+)\s*,\s*(\d+)\s*\)` with `re.IGNORECASE`,
matched as a prefix (`re.match` allows trailing text). -/
def rgbMatch (s : List Char) : Option (Nat × Nat × Nat) := do
  let s1 ← matchCI 'r' s
  let s2 ← matchCI 'g' s1
  let s3 ← matchCI 'b' s2
  let s4 ← matchCh '(' (s3.dropWhile isPyWs)
  let (n1, s5) ← readNat (s4.dropWhile isPyWs)
  let s6 ← matchCh ',' (s5.dropWhile isPyWs)
  let (n2, s7) ← readNat (s6.dropWhile isPyWs)
  let s8 ← matchCh ',' (s7.dropWhile isPyWs)
  let (n3, s9) ← readNat (s8.dropWhile isPyWs)
  let _ ← matchCh ')' (s9.dropWhile isPyWs)
  pure (n1, n2, n3)

/-- The regex of `_parse_hsl`:
`hsl\s*\(\s*(\d+)\s*,\s*(\d+)%\s*,\s*(\d+)%\s*\)` with `re.IGNORECASE`,
matched as a prefix. -/
def hslMatch (s : List Char) : Option (Nat × Nat × Nat) := do
  let s1 ← matchCI 'h' s
  let s2 ← matchCI 's' s1
  let s3 ← matchCI 'l' s2
  let s4 ← matchCh '(' (s3.dropWhile isPyWs)
  let (n1, s5) ← readNat (s4.dropWhile isPyWs)
  let s6 ← matchCh ',' (s5.dropWhile isPyWs)
  let (n2, s7) ← readNat (s6.dropWhile isPyWs)
  let s8 ← matchCh '%' s7
  let s9 ← matchCh ',' (s8.dropWhile isPyWs)
  let (n3, s10) ← readNat (s9.dropWhile isPyWs)
  let s11 ← matchCh '%' s10
  let _ ← matchCh ')' (s11.dropWhile isPyWs)
  pure (n1, n2, n3)

/-- One hex digit, both letter cases, as accepted by `int(xy, 16)` on the
two-character slices of `_parse_hex` (the exotic `int()` fringes — signs,
embedded underscores — cannot appear in a two-character slice that the other
claims exercise and are not modelled). -/
def hexDigitVal (c : Char) : Option Nat :=
  if '0' ≤ c ∧ c ≤ '9' then some (c.toNat - 48)
  else if 'a' ≤ c ∧ c ≤ 'f' then some (c.toNat - 87)
  else if 'A' ≤ c ∧ c ≤ 'F' then some (c.toNat - 55)
  else none

/-- `ColorTool._parse_hex`: strip leading `#`, expand 3-digit shorthand by
doubling, require exactly six hex digits. -/
def parse_hex (color : List Char) : Except (List Char) (Int × Int × Int) :=
  let c0 := color.dropWhile (· = '#')
  let c1 := if c0.length = 3 then c0.flatMap (fun ch => [ch, ch]) else c0
  match c1 with
  | [a, b, c, d, e, f] =>
    match hexDigitVal a, hexDigitVal b, hexDigitVal c,
          hexDigitVal d, hexDigitVal e, hexDigitVal f with
    | some va, some vb, some vc, some vd, some ve, some vf =>
      .ok (((16 * va + vb : Nat) : Int), ((16 * vc + vd : Nat) : Int),
           ((16 * ve + vf : Nat) : Int))
    | _, _, _, _, _, _ => .error "Invalid hex color values".toList
  | _ => .error "Invalid hex color format".toList

/-- `ColorTool._parse_rgb`: regex match, then range check.  (The `0 <=` half
of the source's check is automatic: `\d+` only matches unsigned digits.) -/
def parse_rgb (color : List Char) : Except (List Char) (Int × Int × Int) :=
  match rgbMatch color with
  | none => .error "Invalid RGB format".toList
  | some (r, g, b) =>
    if r ≤ 255 ∧ g ≤ 255 ∧ b ≤ 255 then .ok ((r : Int), (g : Int), (b : Int))
    else .error "RGB values must be between 0 and 255".toList

/-- `ColorTool._parse_hsl`: regex match, then straight to `_hsl_to_rgb` —
note there is no range check on any of the three components. -/
def parse_hsl (color : List Char) : Except (List Char) (Int × Int × Int) :=
  match hslMatch color with
  | none => .error "Invalid HSL format".toList
  | some (h, s, l) => .ok (hsl_to_rgb (h : Int) ((s : ℚ) / 100) ((l : ℚ) / 100))

/-- Lowercase hex digit character. -/
def hexCh (v : Nat) : Char :=
  if v < 10 then Char.ofNat (48 + v) else Char.ofNat (87 + v)

/-- Hex digits of a natural number, most significant first (fuel 8 covers
every magnitude arising here). -/
def natHexDigits (fuel m : Nat) : List Char :=
  match fuel with
  | 0 => []
  | fuel + 1 => if m = 0 then [] else natHexDigits fuel (m / 16) ++ [hexCh (m % 16)]

/-- Python `'%02x'` on an `int`: lowercase hex, `-` sign for negatives, padded
to overall width 2 (a signed value is already at least two characters wide). -/
def pyHex02 (n : Int) : List Char :=
  if n < 0 then '-' :: (if n.natAbs = 0 then ['0'] else natHexDigits 8 n.natAbs)
  else
    let d := if n.toNat = 0 then ['0'] else natHexDigits 8 n.toNat
    if d.length < 2 then '0' :: d else d

/-- Decimal rendering of an `int`, for the CSS strings. -/
def intDec (n : Int) : List Char :=
  (toString n).toList

/-- The `ColorOutput` record of `color_tool.py` (channel fields flattened). -/
structure ColorOutput where
  input_format : List Char
  hex : List Char
  r : Int
  g : Int
  b : Int
  h : Int
  s : Int
  l : Int
  css_rgb : List Char
  css_hsl : List Char
deriving DecidableEq

instance {ε α : Type} [DecidableEq ε] [DecidableEq α] :
    DecidableEq (Except ε α) := fun x y =>
  match x, y with
  | .error a, .error b =>
    if h : a = b then isTrue (h ▸ rfl) else isFalse (fun hh => h (Except.error.inj hh))
  | .ok a, .ok b =>
    if h : a = b then isTrue (h ▸ rfl) else isFalse (fun hh => h (Except.ok.inj hh))
  | .error _, .ok _ => isFalse (fun hh => Except.noConfusion hh)
  | .ok _, .error _ => isFalse (fun hh => Except.noConfusion hh)

/-- `ColorTool.execute`: strip, dispatch on the (case-sensitive!) prefix,
parse, convert, and render all representations; any parse failure is wrapped
as `Invalid color format: ...`. -/
def execute (input : List Char) : Except (List Char) ColorOutput :=
  let color := pyStrip input
  let parsed : Except (List Char) ((Int × Int × Int) × List Char) :=
    if ['#'].isPrefixOf color then (parse_hex color).map (fun t => (t, "hex".toList))
    else if ['r', 'g', 'b'].isPrefixOf color then
      (parse_rgb color).map (fun t => (t, "rgb".toList))
    else if ['h', 's', 'l'].isPrefixOf color then
      (parse_hsl color).map (fun t => (t, "hsl".toList))
    else (parse_hex color).map (fun t => (t, "hex".toList))
  match parsed with
  | .error e => .error ("Invalid color format: ".toList ++ e)
  | .ok ((r, g, b), fmt) =>
    let t := rgb_to_hsl r g b
    .ok { input_format := fmt
          hex := '#' :: (pyHex02 r ++ pyHex02 g ++ pyHex02 b)
          r := r, g := g, b := b, h := t.1, s := t.2.1, l := t.2.2
          css_rgb := "rgb(".toList ++ intDec r ++ ", ".toList ++ intDec g ++
                     ", ".toList ++ intDec b ++ [')']
          css_hsl := "hsl(".toList ++ intDec t.1 ++ ", ".toList ++
                     intDec t.2.1 ++ "%, ".toList ++ intDec t.2.2 ++ "%)".toList }

/-! ## XML escape/unescape (`saxutils.escape` / `saxutils.unescape` with the
default entity maps, as called by `EscapeTool.execute` for format `xml`) -/


def replaceChar (c : Char) (rep : List Char) : List Char → List Char
  | [] => []
  | x :: rest => if x = c then rep ++ replaceChar c rep rest else x :: replaceChar c rep rest

def xml_escape (s : List Char) : List Char :=
  replaceChar '<' ['&', 'l', 't', ';']
    (replaceChar '>' ['&', 'g', 't', ';']
      (replaceChar '&' ['&', 'a', 'm', 'p', ';'] s))

def unescLt : List Char → List Char
  | a :: b :: c :: d :: rest =>
    if a = '&' ∧ b = 'l' ∧ c = 't' ∧ d = ';' then '<' :: unescLt rest
    else a :: unescLt (b :: c :: d :: rest)
  | l => l

def unescGt : List Char → List Char
  | a :: b :: c :: d :: rest =>
    if a = '&' ∧ b = 'g' ∧ c = 't' ∧ d = ';' then '>' :: unescGt rest
    else a :: unescGt (b :: c :: d :: rest)
  | l => l

def unescAmp : List Char → List Char
  | a :: b :: c :: d :: e :: rest =>
    if a = '&' ∧ b = 'a' ∧ c = 'm' ∧ d = 'p' ∧ e = ';' then '&' :: unescAmp rest
    else a :: unescAmp (b :: c :: d :: e :: rest)
  | l => l

def xml_unescape (s : List Char) : List Char :=
  unescAmp (unescGt (unescLt s))

def encXml (c : Char) : List Char :=
  if c = '&' then ['&', 'a', 'm', 'p', ';']
  else if c = '>' then ['&', 'g', 't', ';']
  else if c = '<' then ['&', 'l', 't', ';']
  else [c]

def encXml1 (c : Char) : List Char :=
  if c = '&' then ['&', 'a', 'm', 'p', ';']
  else if c = '>' then ['&', 'g', 't', ';']
  else [c]

def encXml2 (c : Char) : List Char :=
  if c = '&' then ['&', 'a', 'm', 'p', ';']
  else [c]


/-! ## Helper lemmas -/

lemma hexVal_hexDigit (v : Nat) (h : v < 16) : hexVal (hexDigit v) = v := by
  unfold hexVal hexDigit; split_ifs <;> omega

lemma hexDigit_isHexCp (v : Nat) (h : v < 16) : isHexCp (hexDigit v) := by
  unfold isHexCp hexDigit; split_ifs <;> omega

lemma hexDigit_ne_bs (v : Nat) (h : v < 16) : hexDigit v ≠ 92 := by
  unfold hexDigit; split_ifs <;> omega

lemma hexDigit_isHighCp (v : Nat) (h1 : 8 ≤ v) (h2 : v ≤ 11) : isHighCp (hexDigit v) := by
  interval_cases v <;> decide

lemma hexDigit_isLowCp (v : Nat) (h1 : 12 ≤ v) (h2 : v ≤ 15) : isLowCp (hexDigit v) := by
  interval_cases v <;> decide

lemma and15_eq_mod (x : Nat) : x &&& 15 = x % 16 := by
  have := Nat.and_pow_two_sub_one_eq_mod x 4
  norm_num at this
  exact this

lemma and1023_eq_mod (x : Nat) : x &&& 1023 = x % 1024 := by
  have := Nat.and_pow_two_sub_one_eq_mod x 10
  norm_num at this
  exact this

lemma shiftR_eq (x k : Nat) : x >>> k = x / 2 ^ k := Nat.shiftRight_eq_div_pow x k

lemma toHex4_eq (m : Nat) :
    toHex4 m = [hexDigit (m / 4096 % 16), hexDigit (m / 256 % 16),
                hexDigit (m / 16 % 16), hexDigit (m % 16)] := by
  unfold toHex4
  rw [shiftR_eq, shiftR_eq, shiftR_eq, and15_eq_mod, and15_eq_mod, and15_eq_mod, and15_eq_mod]
  norm_num

lemma hexVal4_nibbles (m : Nat) (hm : m < 65536) :
    hexVal4 (hexDigit (m / 4096 % 16)) (hexDigit (m / 256 % 16))
      (hexDigit (m / 16 % 16)) (hexDigit (m % 16)) = m := by
  unfold hexVal4
  rw [hexVal_hexDigit _ (by omega), hexVal_hexDigit _ (by omega),
      hexVal_hexDigit _ (by omega), hexVal_hexDigit _ (by omega)]
  omega

lemma replaceEsc_nil (c r : Nat) : replaceEsc c r [] = [] := by simp [replaceEsc]

lemma replaceEsc_skip {x : Nat} (c r : Nat) (hx : x ≠ 92) (l : List Nat) :
    replaceEsc c r (x :: l) = x :: replaceEsc c r l := by
  rcases l with _ | ⟨y, rest⟩ <;> simp [replaceEsc, hx]

lemma replaceEsc_bs {y : Nat} (c r : Nat) (hy : y ≠ c) (l : List Nat) :
    replaceEsc c r (92 :: y :: l) = 92 :: replaceEsc c r (y :: l) := by
  simp [replaceEsc, hy]

lemma replaceEsc_passE (c r : Nat) (hc : c ≠ 117)
    (a b x y e f g h : Nat) (ha : a ≠ 92) (hb : b ≠ 92) (hx : x ≠ 92) (hy : y ≠ 92)
    (he : e ≠ 92) (hf : f ≠ 92) (hg : g ≠ 92) (hh : h ≠ 92) :
    replaceEsc c r [92, 117, a, b, x, y, 92, 117, e, f, g, h] =
      [92, 117, a, b, x, y, 92, 117, e, f, g, h] := by
  rw [replaceEsc_bs c r (Ne.symm hc), replaceEsc_skip c r (by decide),
      replaceEsc_skip c r ha, replaceEsc_skip c r hb, replaceEsc_skip c r hx,
      replaceEsc_skip c r hy, replaceEsc_bs c r (Ne.symm hc),
      replaceEsc_skip c r (by decide), replaceEsc_skip c r he,
      replaceEsc_skip c r hf, replaceEsc_skip c r hg, replaceEsc_skip c r hh,
      replaceEsc_nil]

lemma replaceX_skip {x : Nat} (hx : x ≠ 92) (l : List Nat) :
    replaceX (x :: l) = x :: replaceX l := by
  rcases l with _ | ⟨y, _ | ⟨d1, _ | ⟨d2, rest⟩⟩⟩ <;> simp [replaceX, hx]

lemma replaceX_bs {y : Nat} (hy : y ≠ 120) (l : List Nat) :
    replaceX (92 :: y :: l) = 92 :: replaceX (y :: l) := by
  rcases l with _ | ⟨d1, _ | ⟨d2, rest⟩⟩ <;> simp [replaceX, hy]

lemma replaceX_nil : replaceX [] = [] := by simp [replaceX]

lemma replaceX_passE (a b x y e f g h : Nat) (ha : a ≠ 92) (hb : b ≠ 92)
    (hx : x ≠ 92) (hy : y ≠ 92) (he : e ≠ 92) (hf : f ≠ 92) (hg : g ≠ 92) (hh : h ≠ 92) :
    replaceX [92, 117, a, b, x, y, 92, 117, e, f, g, h] =
      [92, 117, a, b, x, y, 92, 117, e, f, g, h] := by
  rw [replaceX_bs (by decide), replaceX_skip (by decide), replaceX_skip ha,
      replaceX_skip hb, replaceX_skip hx, replaceX_skip hy, replaceX_bs (by decide),
      replaceX_skip (by decide), replaceX_skip he, replaceX_skip hf, replaceX_skip hg,
      replaceX_skip hh, replaceX_nil]

lemma replaceSurr_pairE (a b x y e f g h : Nat)
    (ha : isSurrD a) (hb : isHighCp b) (hx : isHexCp x) (hy : isHexCp y)
    (he : isSurrD e) (hf : isLowCp f) (hg : isHexCp g) (hh : isHexCp h) :
    replaceSurr [92, 117, a, b, x, y, 92, 117, e, f, g, h] =
      [((hexVal4 a b x y - 55296) <<< 10) + (hexVal4 e f g h - 56320) + 65536] := by
  simp [replaceSurr, ha, hb, hx, hy, he, hf, hg, hh]

lemma replaceU_single (v : Nat) : replaceU [v] = [v] := by simp [replaceU]

lemma hexDigit_le (v : Nat) (h : v < 16) : hexDigit v ≤ 127 := by
  unfold hexDigit; split_ifs <;> omega

lemma toHex4_all_le (n : Nat) : (toHex4 n).all (fun x => x ≤ 127) = true := by
  rw [toHex4_eq]
  simp only [List.all_cons, List.all_nil, Bool.and_true, Bool.and_eq_true,
    decide_eq_true_eq]
  refine ⟨?_, ?_, ?_, ?_⟩ <;> exact hexDigit_le _ (by omega)

lemma js_escapeChar_ascii (o : Nat) :
    (js_escapeChar o).all (fun x => x ≤ 127) = true := by
  by_cases h1 : o = 34
  · subst h1; decide
  by_cases h2 : o = 39
  · subst h2; decide
  by_cases h3 : o = 92
  · subst h3; decide
  by_cases h4 : o = 10
  · subst h4; decide
  by_cases h5 : o = 13
  · subst h5; decide
  by_cases h6 : o = 9
  · subst h6; decide
  by_cases h7 : o = 8
  · subst h7; decide
  by_cases h8 : o = 12
  · subst h8; decide
  by_cases h9 : o < 32
  · rw [js_escapeChar, if_neg h1, if_neg h2, if_neg h3, if_neg h4, if_neg h5,
        if_neg h6, if_neg h7, if_neg h8, if_pos h9]
    rw [List.all_append, toHex4_all_le]
    decide
  by_cases h10 : o > 127
  · by_cases h11 : o ≤ 65535
    · rw [js_escapeChar, if_neg h1, if_neg h2, if_neg h3, if_neg h4, if_neg h5,
          if_neg h6, if_neg h7, if_neg h8, if_neg h9, if_pos h10, if_pos h11]
      rw [List.all_append, toHex4_all_le]
      decide
    · rw [js_escapeChar, if_neg h1, if_neg h2, if_neg h3, if_neg h4, if_neg h5,
          if_neg h6, if_neg h7, if_neg h8, if_neg h9, if_pos h10, if_neg h11]
      rw [List.append_assoc, List.append_assoc, List.all_append, List.all_append,
          List.all_append, toHex4_all_le, toHex4_all_le]
      decide
  · rw [js_escapeChar, if_neg h1, if_neg h2, if_neg h3, if_neg h4, if_neg h5,
        if_neg h6, if_neg h7, if_neg h8, if_neg h9, if_neg h10]
    simp only [List.all_cons, List.all_nil, Bool.and_true, decide_eq_true_eq]
    omega

lemma replaceChar_append (c : Char) (rep l1 l2 : List Char) :
    replaceChar c rep (l1 ++ l2) = replaceChar c rep l1 ++ replaceChar c rep l2 := by
  induction l1 with
  | nil => simp [replaceChar]
  | cons x rest ih =>
    by_cases hx : x = c <;> simp [replaceChar, hx, ih]

lemma xml_escape_flat (s : List Char) : xml_escape s = s.flatMap encXml := by
  induction s with
  | nil => simp [xml_escape, replaceChar]
  | cons c rest ih =>
    by_cases h1 : c = '&'
    · subst h1
      simpa [xml_escape, replaceChar, replaceChar_append, encXml] using ih
    · by_cases h2 : c = '>'
      · subst h2
        simpa [xml_escape, replaceChar, replaceChar_append, encXml] using ih
      · by_cases h3 : c = '<'
        · subst h3
          simpa [xml_escape, replaceChar, replaceChar_append, encXml] using ih
        · simpa [xml_escape, replaceChar, replaceChar_append, encXml, h1, h2, h3] using ih

lemma unescLt_skip {a : Char} (ha : a ≠ '&') (l : List Char) :
    unescLt (a :: l) = a :: unescLt l := by
  rcases l with _ | ⟨b, _ | ⟨c, _ | ⟨d, rest⟩⟩⟩ <;> simp [unescLt, ha]

lemma unescGt_skip {a : Char} (ha : a ≠ '&') (l : List Char) :
    unescGt (a :: l) = a :: unescGt l := by
  rcases l with _ | ⟨b, _ | ⟨c, _ | ⟨d, rest⟩⟩⟩ <;> simp [unescGt, ha]

lemma unescAmp_skip {a : Char} (ha : a ≠ '&') (l : List Char) :
    unescAmp (a :: l) = a :: unescAmp l := by
  rcases l with _ | ⟨b, _ | ⟨c, _ | ⟨d, _ | ⟨e, rest⟩⟩⟩⟩ <;> simp [unescAmp, ha]

lemma stage1 (s : List Char) :
    unescLt (s.flatMap encXml) = s.flatMap encXml1 := by
  induction s with
  | nil => simp [unescLt]
  | cons c rest ih =>
    by_cases h1 : c = '&'
    · subst h1; simpa [encXml, encXml1, unescLt, unescLt_skip] using ih
    · by_cases h2 : c = '>'
      · subst h2; simpa [encXml, encXml1, unescLt, unescLt_skip] using ih
      · by_cases h3 : c = '<'
        · subst h3; simpa [encXml, encXml1, unescLt] using ih
        · simpa [encXml, encXml1, h1, h2, h3, unescLt_skip h1] using ih

lemma stage2 (s : List Char) :
    unescGt (s.flatMap encXml1) = s.flatMap encXml2 := by
  induction s with
  | nil => simp [unescGt]
  | cons c rest ih =>
    by_cases h1 : c = '&'
    · subst h1; simpa [encXml1, encXml2, unescGt, unescGt_skip] using ih
    · by_cases h2 : c = '>'
      · subst h2; simpa [encXml1, encXml2, unescGt] using ih
      · simpa [encXml1, encXml2, h1, h2, unescGt_skip h1] using ih

lemma stage3 (s : List Char) :
    unescAmp (s.flatMap encXml2) = s := by
  induction s with
  | nil => simp [unescAmp]
  | cons c rest ih =>
    by_cases h1 : c = '&'
    · subst h1; simpa [encXml2, unescAmp, unescAmp_skip] using ih
    · simpa [encXml2, h1, unescAmp_skip h1] using ih

theorem xml_roundtrip (s : List Char) : xml_unescape (xml_escape s) = s := by
  rw [xml_escape_flat, xml_unescape, stage1, stage2, stage3]

/-- Shape of a list that starts with the characters `rgb`. -/
lemma rgbHead_shape {l : List Char} (h : ['r', 'g', 'b'].isPrefixOf l = true) :
    ∃ t, l = 'r' :: 'g' :: 'b' :: t := by
  rcases l with _ | ⟨a, _ | ⟨b, _ | ⟨c, t⟩⟩⟩
  · simp [List.isPrefixOf] at h
  · simp [List.isPrefixOf] at h
  · simp [List.isPrefixOf] at h
  · simp [List.isPrefixOf] at h
    obtain ⟨rfl, rfl, rfl⟩ := h
    exact ⟨t, rfl⟩

/-- Low control characters without a named escape become a zero-padded
four-digit escape. -/
lemma jsEscape_low_ctrl (c : Nat) (hlt : c < 32) (h4 : c ≠ 10) (h5 : c ≠ 13)
    (h6 : c ≠ 9) (h7 : c ≠ 8) (h8 : c ≠ 12) :
    js_escape [c] = [92, 117] ++ toHex4 c := by
  show js_escapeChar c ++ [] = _
  rw [js_escapeChar, if_neg (by omega), if_neg (by omega), if_neg (by omega),
      if_neg h4, if_neg h5, if_neg h6, if_neg h7, if_neg h8, if_pos hlt]
  simp

/-- Code points strictly between 0x7F and 0x10000 become a four-digit
escape. -/
lemma jsEscape_bmp_high (c : Nat) (h1 : 127 < c) (h2 : c ≤ 65535) :
    js_escape [c] = [92, 117] ++ toHex4 c := by
  show js_escapeChar c ++ [] = _
  have n34 : ¬ c = 34 := by omega
  have n39 : ¬ c = 39 := by omega
  have n92 : ¬ c = 92 := by omega
  have n10 : ¬ c = 10 := by omega
  have n13 : ¬ c = 13 := by omega
  have n9 : ¬ c = 9 := by omega
  have n8 : ¬ c = 8 := by omega
  have n12 : ¬ c = 12 := by omega
  have nlt : ¬ c < 32 := by omega
  rw [js_escapeChar, if_neg n34, if_neg n39, if_neg n92, if_neg n10, if_neg n13,
      if_neg n9, if_neg n8, if_neg n12, if_neg nlt, if_pos h1, if_pos h2]
  simp

/-! ## Claim theorems -/

/-- Claim C1 (code bug): the spec requires `unescape(escape(s)) == s` for
printable ASCII in every format, but for JavaScript the code breaks it: on
the two-character string backslash `n` (code points 92, 110) escaping yields
backslash backslash `n`, and unescaping that yields backslash newline — the
`str.replace` chain of `js_unescape` rewrites the trailing backslash-`n` pair
before the doubled backslash is collapsed. -/
theorem C1_js_roundtrip_breaks :
    js_escape [92, 110] = [92, 92, 110] ∧
    js_unescape (js_escape [92, 110]) = [92, 10] ∧
    js_unescape (js_escape [92, 110]) ≠ [92, 110] := by
  refine ⟨by decide, by decide, by decide⟩

/-- Claim C2: for every code point above 0xFFFF (and below 0x110000),
JavaScript escape emits exactly the surrogate-pair escape with
`high = 0xD800 + ((cp - 0x10000) >> 10)` and
`low = 0xDC00 + ((cp - 0x10000) & 0x3FF)` as two four-digit `\uHHHH`
sequences, and JavaScript unescape of that pair returns the single original
code point. -/
theorem C2_surrogate_pair_roundtrip (cp : Nat) (h1 : 65535 < cp) (h2 : cp < 1114112) :
    js_escape [cp] =
      [92, 117] ++ toHex4 (55296 + ((cp - 65536) >>> 10)) ++
      [92, 117] ++ toHex4 (56320 + ((cp - 65536) &&& 1023)) ∧
    js_unescape ([92, 117] ++ toHex4 (55296 + ((cp - 65536) >>> 10)) ++
      [92, 117] ++ toHex4 (56320 + ((cp - 65536) &&& 1023))) = [cp] := by
  have hsh : (cp - 65536) >>> 10 = (cp - 65536) / 1024 := by
    rw [shiftR_eq]; norm_num
  have hand : (cp - 65536) &&& 1023 = (cp - 65536) % 1024 := and1023_eq_mod _
  constructor
  · show js_escapeChar cp ++ [] = _
    have n34 : ¬ cp = 34 := by omega
    have n39 : ¬ cp = 39 := by omega
    have n92 : ¬ cp = 92 := by omega
    have n10 : ¬ cp = 10 := by omega
    have n13 : ¬ cp = 13 := by omega
    have n9 : ¬ cp = 9 := by omega
    have n8 : ¬ cp = 8 := by omega
    have n12 : ¬ cp = 12 := by omega
    have nlt : ¬ cp < 32 := by omega
    have nbmp : ¬ cp ≤ 65535 := by omega
    rw [js_escapeChar, if_neg n34, if_neg n39, if_neg n92, if_neg n10, if_neg n13,
        if_neg n9, if_neg n8, if_neg n12, if_neg nlt, if_pos (by omega), if_neg nbmp]
    simp
  · rw [hsh, hand]
    have hhi : 55296 + (cp - 65536) / 1024 < 65536 := by omega
    have hlo : 56320 + (cp - 65536) % 1024 < 65536 := by omega
    set hi := 55296 + (cp - 65536) / 1024 with hhidef
    set lo := 56320 + (cp - 65536) % 1024 with hlodef
    rw [toHex4_eq hi, toHex4_eq lo]
    have e1 : hi / 4096 % 16 = 13 := by omega
    have e5 : lo / 4096 % 16 = 13 := by omega
    have b2 : 8 ≤ hi / 256 % 16 ∧ hi / 256 % 16 ≤ 11 := by omega
    have f2 : 12 ≤ lo / 256 % 16 ∧ lo / 256 % 16 ≤ 15 := by omega
    show js_unescape
      [92, 117, hexDigit (hi / 4096 % 16), hexDigit (hi / 256 % 16),
       hexDigit (hi / 16 % 16), hexDigit (hi % 16),
       92, 117, hexDigit (lo / 4096 % 16), hexDigit (lo / 256 % 16),
       hexDigit (lo / 16 % 16), hexDigit (lo % 16)] = [cp]
    unfold js_unescape jsNamed
    rw [replaceEsc_passE _ _ (by decide) _ _ _ _ _ _ _ _
          (hexDigit_ne_bs _ (by omega)) (hexDigit_ne_bs _ (by omega))
          (hexDigit_ne_bs _ (by omega)) (hexDigit_ne_bs _ (by omega))
          (hexDigit_ne_bs _ (by omega)) (hexDigit_ne_bs _ (by omega))
          (hexDigit_ne_bs _ (by omega)) (hexDigit_ne_bs _ (by omega)),
        replaceEsc_passE _ _ (by decide) _ _ _ _ _ _ _ _
          (hexDigit_ne_bs _ (by omega)) (hexDigit_ne_bs _ (by omega))
          (hexDigit_ne_bs _ (by omega)) (hexDigit_ne_bs _ (by omega))
          (hexDigit_ne_bs _ (by omega)) (hexDigit_ne_bs _ (by omega))
          (hexDigit_ne_bs _ (by omega)) (hexDigit_ne_bs _ (by omega)),
        replaceEsc_passE _ _ (by decide) _ _ _ _ _ _ _ _
          (hexDigit_ne_bs _ (by omega)) (hexDigit_ne_bs _ (by omega))
          (hexDigit_ne_bs _ (by omega)) (hexDigit_ne_bs _ (by omega))
          (hexDigit_ne_bs _ (by omega)) (hexDigit_ne_bs _ (by omega))
          (hexDigit_ne_bs _ (by omega)) (hexDigit_ne_bs _ (by omega)),
        replaceEsc_passE _ _ (by decide) _ _ _ _ _ _ _ _
          (hexDigit_ne_bs _ (by omega)) (hexDigit_ne_bs _ (by omega))
          (hexDigit_ne_bs _ (by omega)) (hexDigit_ne_bs _ (by omega))
          (hexDigit_ne_bs _ (by omega)) (hexDigit_ne_bs _ (by omega))
          (hexDigit_ne_bs _ (by omega)) (hexDigit_ne_bs _ (by omega)),
        replaceEsc_passE _ _ (by decide) _ _ _ _ _ _ _ _
          (hexDigit_ne_bs _ (by omega)) (hexDigit_ne_bs _ (by omega))
          (hexDigit_ne_bs _ (by omega)) (hexDigit_ne_bs _ (by omega))
          (hexDigit_ne_bs _ (by omega)) (hexDigit_ne_bs _ (by omega))
          (hexDigit_ne_bs _ (by omega)) (hexDigit_ne_bs _ (by omega)),
        replaceEsc_passE _ _ (by decide) _ _ _ _ _ _ _ _
          (hexDigit_ne_bs _ (by omega)) (hexDigit_ne_bs _ (by omega))
          (hexDigit_ne_bs _ (by omega)) (hexDigit_ne_bs _ (by omega))
          (hexDigit_ne_bs _ (by omega)) (hexDigit_ne_bs _ (by omega))
          (hexDigit_ne_bs _ (by omega)) (hexDigit_ne_bs _ (by omega)),
        replaceEsc_passE _ _ (by decide) _ _ _ _ _ _ _ _
          (hexDigit_ne_bs _ (by omega)) (hexDigit_ne_bs _ (by omega))
          (hexDigit_ne_bs _ (by omega)) (hexDigit_ne_bs _ (by omega))
          (hexDigit_ne_bs _ (by omega)) (hexDigit_ne_bs _ (by omega))
          (hexDigit_ne_bs _ (by omega)) (hexDigit_ne_bs _ (by omega)),
        replaceEsc_passE _ _ (by decide) _ _ _ _ _ _ _ _
          (hexDigit_ne_bs _ (by omega)) (hexDigit_ne_bs _ (by omega))
          (hexDigit_ne_bs _ (by omega)) (hexDigit_ne_bs _ (by omega))
          (hexDigit_ne_bs _ (by omega)) (hexDigit_ne_bs _ (by omega))
          (hexDigit_ne_bs _ (by omega)) (hexDigit_ne_bs _ (by omega))]
    rw [replaceX_passE _ _ _ _ _ _ _ _
          (hexDigit_ne_bs _ (by omega)) (hexDigit_ne_bs _ (by omega))
          (hexDigit_ne_bs _ (by omega)) (hexDigit_ne_bs _ (by omega))
          (hexDigit_ne_bs _ (by omega)) (hexDigit_ne_bs _ (by omega))
          (hexDigit_ne_bs _ (by omega)) (hexDigit_ne_bs _ (by omega))]
    rw [replaceSurr_pairE _ _ _ _ _ _ _ _
          (e1 ▸ (by decide : isSurrD (hexDigit 13)))
          (hexDigit_isHighCp _ b2.1 b2.2)
          (hexDigit_isHexCp _ (by omega)) (hexDigit_isHexCp _ (by omega))
          (e5 ▸ (by decide : isSurrD (hexDigit 13)))
          (hexDigit_isLowCp _ f2.1 f2.2)
          (hexDigit_isHexCp _ (by omega)) (hexDigit_isHexCp _ (by omega))]
    rw [replaceU_single]
    rw [hexVal4_nibbles hi hhi, hexVal4_nibbles lo hlo]
    rw [Nat.shiftLeft_eq]
    norm_num
    omega

/-- Claim C2 witness at U+1F600. -/
theorem C2_surrogate_pair_roundtrip_witness :
    65535 < 128512 ∧ 128512 < 1114112 ∧
    (js_escape [128512] =
      [92, 117] ++ toHex4 (55296 + ((128512 - 65536) >>> 10)) ++
      [92, 117] ++ toHex4 (56320 + ((128512 - 65536) &&& 1023)) ∧
    js_unescape ([92, 117] ++ toHex4 (55296 + ((128512 - 65536) >>> 10)) ++
      [92, 117] ++ toHex4 (56320 + ((128512 - 65536) &&& 1023))) = [128512]) :=
  ⟨by decide, by decide, C2_surrogate_pair_roundtrip 128512 (by decide) (by decide)⟩

/-- Claim C3 counterexample: `#c86464` parses to RGB (200, 100, 100); its
truncated HSL is (0, 47, 58), and converting back gives (198, 97, 97) — the
red channel moves by 2, more than the claimed ±1. -/
theorem C3_roundtrip_exceeds_one :
    parse_hex "#c86464".toList = .ok (200, 100, 100) ∧
    rgb_to_hsl 200 100 100 = (0, 47, 58) ∧
    hslRound 200 100 100 = (198, 97, 97) ∧
    1 < (200 : Int) - 198 := by
  refine ⟨by decide, by decide, by decide, by decide⟩

/-- Claim C3 amended: the HEX→RGB→HSL→RGB round trip can move a channel by
more than 1; for greyscale colors all three round-tripped channels stay
equal, never exceed the original, and lie within 3 of it, and the bound 3 is
attained (252 returns as 249). -/
theorem C3_roundtrip_amended :
    (∀ v : Fin 256,
      (hslRound (v : Int) (v : Int) (v : Int)).1 =
        (hslRound (v : Int) (v : Int) (v : Int)).2.1 ∧
      (hslRound (v : Int) (v : Int) (v : Int)).2.1 =
        (hslRound (v : Int) (v : Int) (v : Int)).2.2 ∧
      (hslRound (v : Int) (v : Int) (v : Int)).1 ≤ (v : Int) ∧
      (v : Int) - 3 ≤ (hslRound (v : Int) (v : Int) (v : Int)).1) ∧
    hslRound 252 252 252 = (249, 249, 249) := by
  refine ⟨by decide, by decide⟩

/-- Claim C4 counterexample: on backslash `x5c` `n` the code (named escapes
first) returns literal backslash `n`, while the order the claim prescribes
(`\xHH` first, named escapes last) would return a newline. -/
theorem C4_decode_order_differs :
    js_unescape [92, 120, 53, 99, 110] = [92, 110] ∧
    jsUnescapeClaimOrder [92, 120, 53, 99, 110] = [10] ∧
    js_unescape [92, 120, 53, 99, 110] ≠
      jsUnescapeClaimOrder [92, 120, 53, 99, 110] := by
  refine ⟨by decide, by decide, by decide⟩

/-- Claim C4 amended: `js_unescape` decodes the named two-character escapes
first, then `\xHH`, then consecutive surrogate pairs, then remaining
standalone `\uHHHH`; surrogate recombination does precede generic `\u`
decoding (the U+1F600 pair recombines, and surrogates separated by another
character decode as two lone code points). -/
theorem C4_decode_order_amended :
    (∀ s : List Nat,
      js_unescape s = replaceU (replaceSurr (replaceX (jsNamed s)))) ∧
    js_unescape [92, 92, 120, 52, 49] = [65] ∧
    js_unescape [92, 117, 100, 56, 51, 100, 92, 117, 100, 101, 48, 48] =
      [128512] ∧
    js_unescape [92, 117, 100, 56, 51, 100, 120, 92, 117, 100, 101, 48, 48] =
      [55357, 120, 56832] := by
  refine ⟨fun s => rfl, by decide, by decide, by decide⟩

/-- Claim C5 counterexample: `hsl(0, 200%, 50%)` has a saturation percentage
far out of range, yet `execute` produces output (with red channel 382)
instead of raising — `_parse_hsl` never range-checks its components. -/
theorem C5_hsl_out_of_range_accepted :
    (execute "hsl(0, 200%, 50%)".toList).toOption.map ColorOutput.r =
      some 382 ∧
    (execute "hsl(0, 200%, 50%)".toList).isOk = true := by
  refine ⟨by decide, by decide⟩

/-- Claim C5 amended: unmatched notations and out-of-range RGB channels do
raise (the three spec inputs each fail, and every rgb-prefixed input whose
matched components leave [0,255] fails), but HSL percentages are not
validated. -/
theorem C5_error_conditions_amended :
    execute "rgb(300,0,0)".toList =
      .error "Invalid color format: RGB values must be between 0 and 255".toList ∧
    execute "#gggggg".toList =
      .error "Invalid color format: Invalid hex color values".toList ∧
    execute "not_a_color".toList =
      .error "Invalid color format: Invalid hex color format".toList ∧
    ∀ (s : List Char) (r g b : Nat),
      ['r', 'g', 'b'].isPrefixOf (pyStrip s) = true →
      rgbMatch (pyStrip s) = some (r, g, b) →
      ¬(r ≤ 255 ∧ g ≤ 255 ∧ b ≤ 255) →
      execute s =
        .error "Invalid color format: RGB values must be between 0 and 255".toList := by
  refine ⟨by decide, by decide, by decide, ?_⟩
  intro s r g b hpre hm hout
  obtain ⟨t0, ht⟩ := rgbHead_shape hpre
  rw [ht] at hm
  simp [execute, ht, List.isPrefixOf, parse_rgb, hm, hout, Except.map]

/-- Claim C5 witness: `rgb(999, 12, 34)` is rgb-prefixed, matches the regex
with an out-of-range component, and raises. -/
theorem C5_error_conditions_amended_witness :
    ['r', 'g', 'b'].isPrefixOf (pyStrip "rgb(999, 12, 34)".toList) = true ∧
    rgbMatch (pyStrip "rgb(999, 12, 34)".toList) = some (999, 12, 34) ∧
    ¬((999 : Nat) ≤ 255 ∧ (12 : Nat) ≤ 255 ∧ (34 : Nat) ≤ 255) ∧
    execute "rgb(999, 12, 34)".toList =
      .error "Invalid color format: RGB values must be between 0 and 255".toList :=
  ⟨by decide, by decide, by decide,
   C5_error_conditions_amended.2.2.2 _ 999 12 34 (by decide) (by decide) (by decide)⟩

/-- Claim C6: RGB→HSL truncates to integers (129/129/129 has exact lightness
50.58… yet yields 50, and 200/100/100 has exact saturation 47.6… yet yields
47 — rounding would give 51 and 48); equal channels give H = S = 0 with
truncated lightness, and `rgb(128, 128, 128)` converts to `#808080` and
HSL (0, 0, 50). -/
theorem C6_truncation_and_achromatic :
    (∀ v : Fin 256, rgb_to_hsl (v : Int) (v : Int) (v : Int) =
      (0, 0, (100 * (v : Int)) / 255)) ∧
    (execute "rgb(128, 128, 128)".toList).toOption.map
        (fun o => (o.hex, o.h, o.s, o.l)) =
      some ("#808080".toList, 0, 0, 50) ∧
    rgb_to_hsl 129 129 129 = (0, 0, 50) ∧ (101 : ℚ) / 2 < 129 * 100 / 255 ∧
    rgb_to_hsl 200 100 100 = (0, 47, 58) ∧ (95 : ℚ) / 2 < 10000 / 210 := by
  refine ⟨by decide, by decide, by decide, by decide, by decide, by decide⟩

/-- Claim C7 counterexample: U+007F is NOT escaped — `js_escape` passes it
through literally instead of producing `\u007f`. -/
theorem C7_del_not_escaped :
    js_escape [127] = [127] ∧ js_escape [127] ≠ [92, 117] ++ toHex4 127 := by
  refine ⟨by decide, by decide⟩

/-- Claim C7 amended: control characters below 0x20 with no named escape get
a zero-padded `\u00XX`, and code points in [0x80, 0xFFFF] (not [0x7F, …]) get
`\uXXXX`; U+007F passes through literally. -/
theorem C7_escape_ranges_amended :
    (∀ c : Nat, c < 32 → c ≠ 10 → c ≠ 13 → c ≠ 9 → c ≠ 8 → c ≠ 12 →
      js_escape [c] = [92, 117] ++ toHex4 c) ∧
    (∀ c : Nat, 127 < c → c ≤ 65535 → js_escape [c] = [92, 117] ++ toHex4 c) ∧
    js_escape [127] = [127] :=
  ⟨jsEscape_low_ctrl, jsEscape_bmp_high, by decide⟩

/-- Claim C7 witness at U+0001 and U+0080. -/
theorem C7_escape_ranges_amended_witness :
    ((1 : Nat) < 32 ∧ js_escape [1] = [92, 117] ++ toHex4 1) ∧
    (127 < (128 : Nat) ∧ (128 : Nat) ≤ 65535 ∧
      js_escape [128] = [92, 117] ++ toHex4 128) :=
  ⟨⟨by decide, C7_escape_ranges_amended.1 1 (by decide) (by decide) (by decide)
      (by decide) (by decide) (by decide)⟩,
   ⟨by decide, by decide, C7_escape_ranges_amended.2.1 128 (by decide) (by decide)⟩⟩

/-- Claim C8 counterexample: XML escape leaves the quote characters alone
(only `&`, `<`, `>` are replaced), and XML unescape does not decode `&quot;`
or `&apos;`. -/
theorem C8_quotes_not_escaped :
    xml_escape "\"'".toList = "\"'".toList ∧
    xml_escape "\"'".toList ≠ "&quot;&apos;".toList ∧
    xml_unescape "&quot;&apos;".toList = "&quot;&apos;".toList := by
  refine ⟨by decide, by decide, by decide⟩

/-- Claim C8 amended: XML escape replaces exactly the three characters `&`,
`<`, `>` with `&amp; &lt; &gt;`, XML unescape inverts exactly those three
entities and nothing else, and unescape-of-escape is the identity on every
string. -/
theorem C8_xml_three_entities_amended :
    (∀ s : List Char, xml_unescape (xml_escape s) = s) ∧
    xml_escape "&<>".toList = "&amp;&lt;&gt;".toList ∧
    xml_unescape "&amp;&lt;&gt;".toList = "&<>".toList := by
  refine ⟨xml_roundtrip, by decide, by decide⟩

/-- Claim C9 counterexample: `RGB(0, 0, 0)` is not detected as rgb notation —
the dispatch `startswith('rgb')` is case-sensitive, so the input falls
through to the bare-hex parser and raises. -/
theorem C9_uppercase_rgb_rejected :
    execute "RGB(0, 0, 0)".toList =
      .error "Invalid color format: Invalid hex color format".toList := by
  decide

/-- Claim C9 amended: inputs whose stripped form starts with lowercase `rgb`
and matches `rgb(<int>,<int>,<int>)` (arbitrary whitespace around commas and
parentheses, trailing text ignored) succeed whenever each component is at
most 255, reporting format `rgb` and the parsed channels; uppercase `RGB`
prefixes are not detected. -/
theorem C9_rgb_detection_amended :
    (∀ (s : List Char) (r g b : Nat),
      ['r', 'g', 'b'].isPrefixOf (pyStrip s) = true →
      rgbMatch (pyStrip s) = some (r, g, b) →
      r ≤ 255 → g ≤ 255 → b ≤ 255 →
      (execute s).toOption.map (fun o => (o.input_format, o.r, o.g, o.b)) =
        some ("rgb".toList, (r : Int), (g : Int), (b : Int))) ∧
    (execute "rgb(  0 ,128  ,255 )".toList).toOption.map
        (fun o => (o.r, o.g, o.b)) = some (0, 128, 255) := by
  constructor
  · intro s r g b hpre hm hr hg hb
    obtain ⟨t0, ht⟩ := rgbHead_shape hpre
    rw [ht] at hm
    simp [execute, ht, List.isPrefixOf, parse_rgb, hm, hr, hg, hb, Except.map,
      Except.toOption]
  · decide

/-- Claim C9 witness: `rgb( 12, 34 , 56 )` parses with whitespace around the
separators. -/
theorem C9_rgb_detection_amended_witness :
    ['r', 'g', 'b'].isPrefixOf (pyStrip "rgb( 12, 34 , 56 )".toList) = true ∧
    rgbMatch (pyStrip "rgb( 12, 34 , 56 )".toList) = some (12, 34, 56) ∧
    (execute "rgb( 12, 34 , 56 )".toList).toOption.map
        (fun o => (o.input_format, o.r, o.g, o.b)) =
      some ("rgb".toList, 12, 34, 56) :=
  ⟨by decide, by decide,
   C9_rgb_detection_amended.1 _ 12 34 56 (by decide) (by decide) (by decide)
     (by decide) (by decide)⟩

/-- Claim C10: the output of JavaScript escape is pure ASCII — every code
point it emits is at most 0x7F, for every input string. -/
theorem C10_js_escape_ascii (s : List Nat) :
    (js_escape s).all (fun x => x ≤ 127) = true := by
  induction s with
  | nil => decide
  | cons c rest ih =>
    unfold js_escape at ih ⊢
    rw [List.flatMap_cons, List.all_append, js_escapeChar_ascii, ih]
    rfl
